import Mathlib

/-!
Verification of the `LockedFile` guarded file-handle decorator from
`src/store/disk_lock.rs`: a wrapper around an underlying file handle that,
per a `no_lock` policy flag, is meant to guard each I/O operation by a
shared acquisition of a process-wide `DISK_LOCK`.  The wrapper and its
private `lock` helper are embedded below exactly as the source has them;
in particular the shared-acquisition line of the helper is commented out
in the source, and the embedding reproduces that.
-/

namespace DiskLock

/-- Error categories of the host environment.  The wrapper introduces no
error categories of its own; only these pass through it. -/
inductive IOError where
  | interrupted
  | permissionDenied
  | invalidInput
  | other
deriving DecidableEq, Repr

/-- Modelled from the spec: the state of one underlying `std::fs::File`,
which is external to the repository.  A file is its byte contents
together with the sequential stream cursor used by `read`, `write` and
`seek`. -/
structure File where
  contents : List Nat
  cursor : Nat
deriving DecidableEq, Repr

/-- Modelled from the spec: sequential `read` fills the buffer from the
current stream position, advances the position by the bytes read, and
returns fewer bytes than requested only at end of stream. -/
def File.read (f : File) (n : Nat) : List Nat × File :=
  let bytes := (f.contents.drop f.cursor).take n
  (bytes, { f with cursor := f.cursor + bytes.length })

/-- Modelled from the spec: vectored read fills the buffers, of the given
sizes, from the current stream position as one sequential read. -/
def File.read_vectored (f : File) (sizes : List Nat) : List Nat × File :=
  f.read sizes.sum

/-- The byte string obtained by writing `buf` into `c` at offset `pos`,
zero-filling the gap when `pos` is past the end of `c`. -/
def writeBytes (c : List Nat) (pos : Nat) (buf : List Nat) : List Nat :=
  let padded := c ++ List.replicate (pos - c.length) 0
  padded.take pos ++ buf ++ padded.drop (pos + buf.length)

/-- Modelled from the spec: sequential `write` writes from the current
stream position, advances the position, and returns the byte count. -/
def File.write (f : File) (buf : List Nat) : Nat × File :=
  (buf.length,
    { contents := writeBytes f.contents f.cursor buf,
      cursor := f.cursor + buf.length })

/-- Modelled from the spec: vectored write writes the concatenation of
the buffers from the current stream position. -/
def File.write_vectored (f : File) (bufs : List (List Nat)) : Nat × File :=
  f.write bufs.flatten

/-- Modelled from the spec: `flush` on a raw file is a no-op that
reports success. -/
def File.flush (f : File) : Except IOError Unit × File :=
  (.ok (), f)

/-- Seek target: absolute, relative to the current position, or relative
to the end of the file. -/
inductive SeekFrom where
  | start (n : Nat)
  | current (d : Int)
  | fromEnd (d : Int)
deriving DecidableEq, Repr

/-- Modelled from the spec: `seek` repositions the stream cursor and
returns the resulting absolute position; a negative resulting position
is an invalid-seek error and leaves the cursor unchanged. -/
def File.seek (f : File) (pos : SeekFrom) : Except IOError Nat × File :=
  let target : Int :=
    match pos with
    | .start n => (n : Int)
    | .current d => (f.cursor : Int) + d
    | .fromEnd d => (f.contents.length : Int) + d
  if target < 0 then (.error .invalidInput, f)
  else (.ok target.toNat, { f with cursor := target.toNat })

/-- Modelled from the spec: positioned read at an explicit byte offset,
independent of and non-mutating toward the sequential stream cursor. -/
def File.read_at (f : File) (pos n : Nat) : List Nat × File :=
  ((f.contents.drop pos).take n, f)

/-- Modelled from the spec: positioned write at an explicit byte offset,
zero-filling any gap past end of file, non-mutating toward the
sequential stream cursor. -/
def File.write_at (f : File) (pos : Nat) (buf : List Nat) : Nat × File :=
  (buf.length, { f with contents := writeBytes f.contents pos buf })

/-- File metadata; the part of it the claims mention is the length. -/
structure Metadata where
  len : Nat
deriving DecidableEq, Repr

/-- Modelled from the spec: `metadata` reports the current length of the
file and mutates nothing. -/
def File.metadata (f : File) : Metadata × File :=
  (⟨f.contents.length⟩, f)

/-- Modelled from the spec: `sync_all` forces durability and never
alters content, length or cursor. -/
def File.sync_all (f : File) : Except IOError Unit × File :=
  (.ok (), f)

/-- Modelled from the spec: `sync_data` forces durability of data only
and never alters content, length or cursor. -/
def File.sync_data (f : File) : Except IOError Unit × File :=
  (.ok (), f)

/-- Modelled from the spec: `set_len` truncates or extends the file to
exactly `size` bytes, zero-filling on extension, leaving the cursor
where it was. -/
def File.set_len (f : File) (size : Nat) : Except IOError Unit × File :=
  (.ok (),
    { f with contents :=
        f.contents.take size ++ List.replicate (size - f.contents.length) 0 })

/-- Model of a held `RwLockReadGuard` on the global `DISK_LOCK`. -/
abbrev Guard := Unit

/-- Observable events of the process-wide locking machinery: how many
times a `LockedFile` invoked its private lock helper, and how many
shared acquisitions were actually performed on the global `DISK_LOCK`. -/
structure Trace where
  lockCalls : Nat
  diskLockAcquires : Nat
deriving DecidableEq, Repr

/-- The guarded file handle of `src/store/disk_lock.rs`: the underlying
file and the locking-policy flag fixed at construction. -/
structure LockedFile where
  file : File
  no_lock : Bool
deriving DecidableEq, Repr

/-- `LockedFile::new_lock(file, no_lock)`. -/
def LockedFile.new_lock (file : File) (no_lock : Bool) : LockedFile :=
  { file := file, no_lock := no_lock }

/-- `LockedFile::new(file)`: defaults to lock. -/
def LockedFile.new (file : File) : LockedFile :=
  LockedFile.new_lock file false

/-- The private lock helper, exactly as in the source: when `no_lock` is
set it skips locking and returns no guard; in the other branch the
shared acquisition `Some(DISK_LOCK.read())` is commented out in the
source, so it also returns no guard and performs no acquisition. -/
def LockedFile.lock (lf : LockedFile) (tr : Trace) : Option Guard × Trace :=
  let tr1 := { tr with lockCalls := tr.lockCalls + 1 }
  if lf.no_lock then
    (none, tr1)
  else
    (none, tr1)

/-- `Read::read` for `LockedFile`: take the guard, delegate to the file. -/
def LockedFile.read (lf : LockedFile) (n : Nat) (tr : Trace) :
    (List Nat × LockedFile) × Trace :=
  let (_guard, tr1) := lf.lock tr
  let (bytes, f) := lf.file.read n
  ((bytes, { lf with file := f }), tr1)

/-- `Read::read_vectored` for `LockedFile`. -/
def LockedFile.read_vectored (lf : LockedFile) (sizes : List Nat) (tr : Trace) :
    (List Nat × LockedFile) × Trace :=
  let (_guard, tr1) := lf.lock tr
  let (bytes, f) := lf.file.read_vectored sizes
  ((bytes, { lf with file := f }), tr1)

/-- `Write::write` for `LockedFile`. -/
def LockedFile.write (lf : LockedFile) (buf : List Nat) (tr : Trace) :
    (Nat × LockedFile) × Trace :=
  let (_guard, tr1) := lf.lock tr
  let (count, f) := lf.file.write buf
  ((count, { lf with file := f }), tr1)

/-- `Write::write_vectored` for `LockedFile`. -/
def LockedFile.write_vectored (lf : LockedFile) (bufs : List (List Nat)) (tr : Trace) :
    (Nat × LockedFile) × Trace :=
  let (_guard, tr1) := lf.lock tr
  let (count, f) := lf.file.write_vectored bufs
  ((count, { lf with file := f }), tr1)

/-- `Write::flush` for `LockedFile`. -/
def LockedFile.flush (lf : LockedFile) (tr : Trace) :
    (Except IOError Unit × LockedFile) × Trace :=
  let (_guard, tr1) := lf.lock tr
  let (r, f) := lf.file.flush
  ((r, { lf with file := f }), tr1)

/-- `Seek::seek` for `LockedFile`. -/
def LockedFile.seek (lf : LockedFile) (pos : SeekFrom) (tr : Trace) :
    (Except IOError Nat × LockedFile) × Trace :=
  let (_guard, tr1) := lf.lock tr
  let (r, f) := lf.file.seek pos
  ((r, { lf with file := f }), tr1)

/-- `ReadAt::read_at` for `LockedFile`. -/
def LockedFile.read_at (lf : LockedFile) (pos n : Nat) (tr : Trace) :
    (List Nat × LockedFile) × Trace :=
  let (_guard, tr1) := lf.lock tr
  let (bytes, f) := lf.file.read_at pos n
  ((bytes, { lf with file := f }), tr1)

/-- `WriteAt::write_at` for `LockedFile`. -/
def LockedFile.write_at (lf : LockedFile) (pos : Nat) (buf : List Nat) (tr : Trace) :
    (Nat × LockedFile) × Trace :=
  let (_guard, tr1) := lf.lock tr
  let (count, f) := lf.file.write_at pos buf
  ((count, { lf with file := f }), tr1)

/-- `LockedFile::metadata`: forwards directly to the file, with no call
to the lock helper, exactly as in the source. -/
def LockedFile.metadata (lf : LockedFile) (tr : Trace) :
    (Metadata × LockedFile) × Trace :=
  let (m, f) := lf.file.metadata
  ((m, { lf with file := f }), tr)

/-- `LockedFile::sync_all`. -/
def LockedFile.sync_all (lf : LockedFile) (tr : Trace) :
    (Except IOError Unit × LockedFile) × Trace :=
  let (_guard, tr1) := lf.lock tr
  let (r, f) := lf.file.sync_all
  ((r, { lf with file := f }), tr1)

/-- `LockedFile::sync_data`. -/
def LockedFile.sync_data (lf : LockedFile) (tr : Trace) :
    (Except IOError Unit × LockedFile) × Trace :=
  let (_guard, tr1) := lf.lock tr
  let (r, f) := lf.file.sync_data
  ((r, { lf with file := f }), tr1)

/-- `LockedFile::set_len`. -/
def LockedFile.set_len (lf : LockedFile) (size : Nat) (tr : Trace) :
    (Except IOError Unit × LockedFile) × Trace :=
  let (_guard, tr1) := lf.lock tr
  let (r, f) := lf.file.set_len size
  ((r, { lf with file := f }), tr1)

/-- Sequential round-trip scenario: write `data` at the current stream
position `P`, seek back to `P`, then read `data.length` bytes. -/
def seqRoundTrip (lf : LockedFile) (data : List Nat) (tr : Trace) : List Nat :=
  let p := lf.file.cursor
  let s1 := lf.write data tr
  let s2 := s1.1.2.seek (.start p) s1.2
  (s2.1.2.read data.length s2.2).1.1

/-- Positioned round-trip scenario: `write_at p data`, then
`read_at p data.length`. -/
def posRoundTrip (lf : LockedFile) (p : Nat) (data : List Nat) (tr : Trace) :
    List Nat :=
  let s1 := lf.write_at p data tr
  (s1.1.2.read_at p data.length s1.2).1.1

/-- Cross-path scenario: `write_at p data`, then seek to `p` and read
sequentially. -/
def crossRoundTrip (lf : LockedFile) (p : Nat) (data : List Nat) (tr : Trace) :
    List Nat :=
  let s1 := lf.write_at p data tr
  let s2 := s1.1.2.seek (.start p) s1.2
  (s2.1.2.read data.length s2.2).1.1

/-- Reading back `buf.length` bytes at the offset just written yields
exactly the written bytes. -/
theorem writeBytes_drop_take (c : List Nat) (pos : Nat) (buf : List Nat) :
    ((writeBytes c pos buf).drop pos).take buf.length = buf := by
  have hlen :
      ((c ++ List.replicate (pos - c.length) (0 : Nat)).take pos).length = pos := by
    rw [List.length_take]
    simp only [List.length_append, List.length_replicate]
    omega
  unfold writeBytes
  rw [List.append_assoc, List.drop_left' hlen, List.take_left]

/-- The contents produced by `set_len` have length exactly `size`. -/
theorem set_len_contents_length (c : List Nat) (size : Nat) :
    (c.take size ++ List.replicate (size - c.length) (0 : Nat)).length = size := by
  simp only [List.length_append, List.length_take, List.length_replicate]
  omega

/-- Extending to `L ≥ length` and truncating back to the original length
restores the original contents. -/
theorem set_len_restore (c : List Nat) (L : Nat) (h : c.length ≤ L) :
    (c.take L ++ List.replicate (L - c.length) (0 : Nat)).take c.length
      ++ List.replicate (c.length -
          (c.take L ++ List.replicate (L - c.length) (0 : Nat)).length) (0 : Nat)
      = c := by
  rw [set_len_contents_length c L, List.take_of_length_le h, List.take_left]
  have h0 : c.length - L = 0 := by omega
  rw [h0]
  simp

/-- `seek` to an absolute position always succeeds and sets the cursor. -/
theorem File.seek_start (f : File) (p : Nat) :
    f.seek (.start p) = (.ok p, { f with cursor := p }) := by
  have h : ¬ ((p : Nat) : Int) < 0 := by omega
  simp [File.seek, h]

/-- Claim C2: for every `LockedFile`, regardless of the `no_lock` flag,
the private lock helper returns no guard and performs no shared
acquisition on the global `DISK_LOCK`; the shared-lock path is present
in signature but never taken. -/
theorem lock_helper_always_none (lf : LockedFile) (tr : Trace) :
    (lf.lock tr).1 = none ∧
    (lf.lock tr).2.diskLockAcquires = tr.diskLockAcquires := by
  unfold LockedFile.lock
  by_cases h : lf.no_lock <;> simp [h]

/-- Claim C1, counterexample: on a concrete `LockedFile` whose `no_lock`
flag is false, the lock helper returns no guard at all and performs no
shared acquisition on `DISK_LOCK`, refuting the claim that it returns a
held shared guard (Some) whenever `no_lock` is false. -/
theorem lock_not_acquired_counterexample :
    (LockedFile.new_lock ⟨[], 0⟩ false).no_lock = false ∧
    ((LockedFile.new_lock ⟨[], 0⟩ false).lock ⟨0, 0⟩).1 = none ∧
    ¬ (((LockedFile.new_lock ⟨[], 0⟩ false).lock ⟨0, 0⟩).1.isSome = true) ∧
    ((LockedFile.new_lock ⟨[], 0⟩ false).lock ⟨0, 0⟩).2.diskLockAcquires = 0 := by
  decide

/-- Claim C1 (amended): for every guarded operation (read,
read_vectored, write, write_vectored, flush, seek, read_at, write_at,
sync_all, sync_data, set_len) on a `LockedFile` whose `no_lock` flag is
false, the operation invokes the lock helper, but the helper returns no
guard and performs no shared acquisition on the global `DISK_LOCK`; the
operation then delegates to the underlying call unconditionally. -/
theorem guarded_ops_invoke_stub_helper (lf : LockedFile) (tr : Trace)
    (h : lf.no_lock = false) :
    ((lf.lock tr).1 = none ∧
      (lf.lock tr).2 = ⟨tr.lockCalls + 1, tr.diskLockAcquires⟩) ∧
    (∀ n, (lf.read n tr).2 = ⟨tr.lockCalls + 1, tr.diskLockAcquires⟩ ∧
      (lf.read n tr).1.1 = (lf.file.read n).1) ∧
    (∀ sizes, (lf.read_vectored sizes tr).2 = ⟨tr.lockCalls + 1, tr.diskLockAcquires⟩ ∧
      (lf.read_vectored sizes tr).1.1 = (lf.file.read_vectored sizes).1) ∧
    (∀ buf, (lf.write buf tr).2 = ⟨tr.lockCalls + 1, tr.diskLockAcquires⟩ ∧
      (lf.write buf tr).1.1 = (lf.file.write buf).1) ∧
    (∀ bufs, (lf.write_vectored bufs tr).2 = ⟨tr.lockCalls + 1, tr.diskLockAcquires⟩ ∧
      (lf.write_vectored bufs tr).1.1 = (lf.file.write_vectored bufs).1) ∧
    ((lf.flush tr).2 = ⟨tr.lockCalls + 1, tr.diskLockAcquires⟩ ∧
      (lf.flush tr).1.1 = (lf.file.flush).1) ∧
    (∀ pos, (lf.seek pos tr).2 = ⟨tr.lockCalls + 1, tr.diskLockAcquires⟩ ∧
      (lf.seek pos tr).1.1 = (lf.file.seek pos).1) ∧
    (∀ pos n, (lf.read_at pos n tr).2 = ⟨tr.lockCalls + 1, tr.diskLockAcquires⟩ ∧
      (lf.read_at pos n tr).1.1 = (lf.file.read_at pos n).1) ∧
    (∀ pos buf, (lf.write_at pos buf tr).2 = ⟨tr.lockCalls + 1, tr.diskLockAcquires⟩ ∧
      (lf.write_at pos buf tr).1.1 = (lf.file.write_at pos buf).1) ∧
    ((lf.sync_all tr).2 = ⟨tr.lockCalls + 1, tr.diskLockAcquires⟩ ∧
      (lf.sync_all tr).1.1 = (lf.file.sync_all).1) ∧
    ((lf.sync_data tr).2 = ⟨tr.lockCalls + 1, tr.diskLockAcquires⟩ ∧
      (lf.sync_data tr).1.1 = (lf.file.sync_data).1) ∧
    (∀ size, (lf.set_len size tr).2 = ⟨tr.lockCalls + 1, tr.diskLockAcquires⟩ ∧
      (lf.set_len size tr).1.1 = (lf.file.set_len size).1) := by
  refine ⟨⟨?_, ?_⟩, ?_, ?_, ?_, ?_, ?_, ?_, ?_, ?_, ?_, ?_, ?_⟩ <;>
    simp [LockedFile.lock, LockedFile.read, LockedFile.read_vectored,
      LockedFile.write, LockedFile.write_vectored, LockedFile.flush,
      LockedFile.seek, LockedFile.read_at, LockedFile.write_at,
      LockedFile.sync_all, LockedFile.sync_data, LockedFile.set_len, h]

/-- Claim C1 amended, witness at a concrete locking-enabled handle. -/
theorem guarded_ops_invoke_stub_helper_witness :
    (LockedFile.new_lock ⟨[1, 2], 0⟩ false).no_lock = false ∧
    ((LockedFile.new_lock ⟨[1, 2], 0⟩ false).read 1 ⟨0, 0⟩).2
      = ⟨1, 0⟩ :=
  ⟨rfl,
    ((guarded_ops_invoke_stub_helper (LockedFile.new_lock ⟨[1, 2], 0⟩ false)
      ⟨0, 0⟩ rfl).2.1 1).1⟩

/-- Claim C3: every wrapper operation returns exactly the result of the
identically named operation on the underlying file — the same success
value or error, and the same resulting file state — with no error
suppressed, wrapped, retried or reinterpreted. -/
theorem wrapper_result_equals_file_result (lf : LockedFile) (tr : Trace) :
    (∀ n, (lf.read n tr).1
      = ((lf.file.read n).1, { lf with file := (lf.file.read n).2 })) ∧
    (∀ sizes, (lf.read_vectored sizes tr).1
      = ((lf.file.read_vectored sizes).1,
          { lf with file := (lf.file.read_vectored sizes).2 })) ∧
    (∀ buf, (lf.write buf tr).1
      = ((lf.file.write buf).1, { lf with file := (lf.file.write buf).2 })) ∧
    (∀ bufs, (lf.write_vectored bufs tr).1
      = ((lf.file.write_vectored bufs).1,
          { lf with file := (lf.file.write_vectored bufs).2 })) ∧
    ((lf.flush tr).1
      = ((lf.file.flush).1, { lf with file := (lf.file.flush).2 })) ∧
    (∀ pos, (lf.seek pos tr).1
      = ((lf.file.seek pos).1, { lf with file := (lf.file.seek pos).2 })) ∧
    (∀ pos n, (lf.read_at pos n tr).1
      = ((lf.file.read_at pos n).1, { lf with file := (lf.file.read_at pos n).2 })) ∧
    (∀ pos buf, (lf.write_at pos buf tr).1
      = ((lf.file.write_at pos buf).1,
          { lf with file := (lf.file.write_at pos buf).2 })) ∧
    ((lf.metadata tr).1
      = ((lf.file.metadata).1, { lf with file := (lf.file.metadata).2 })) ∧
    ((lf.sync_all tr).1
      = ((lf.file.sync_all).1, { lf with file := (lf.file.sync_all).2 })) ∧
    ((lf.sync_data tr).1
      = ((lf.file.sync_data).1, { lf with file := (lf.file.sync_data).2 })) ∧
    (∀ size, (lf.set_len size tr).1
      = ((lf.file.set_len size).1, { lf with file := (lf.file.set_len size).2 })) := by
  refine ⟨?_, ?_, ?_, ?_, ?_, ?_, ?_, ?_, ?_, ?_, ?_, ?_⟩ <;>
    simp [LockedFile.lock, LockedFile.read, LockedFile.read_vectored,
      LockedFile.write, LockedFile.write_vectored, LockedFile.flush,
      LockedFile.seek, LockedFile.read_at, LockedFile.write_at,
      LockedFile.metadata, LockedFile.sync_all, LockedFile.sync_data,
      LockedFile.set_len]

/-- Claim C4: writing `data` at position `p` and reading `data.length`
bytes back from `p` yields `data`, for the sequential path, the
positioned path, and the cross path where a positioned write is read
back sequentially after a seek. -/
theorem roundtrip_reads_back_written_bytes (lf : LockedFile) (p : Nat)
    (data : List Nat) (tr : Trace) :
    seqRoundTrip lf data tr = data ∧
    posRoundTrip lf p data tr = data ∧
    crossRoundTrip lf p data tr = data := by
  refine ⟨?_, ?_, ?_⟩ <;>
    simp [seqRoundTrip, posRoundTrip, crossRoundTrip, LockedFile.write,
      LockedFile.write_at, LockedFile.seek, LockedFile.read, LockedFile.read_at,
      LockedFile.lock, File.write, File.write_at, File.seek_start, File.read,
      File.read_at, writeBytes_drop_take]

/-- Claim C5: the positioned operations `read_at` and `write_at` do not
mutate the sequential stream cursor (and `read_at` mutates nothing at
all): the cursor seen by subsequent `read`, `write` and `seek` is
unchanged. -/
theorem positioned_io_preserves_cursor (lf : LockedFile) (pos n : Nat)
    (buf : List Nat) (tr : Trace) :
    ((lf.read_at pos n tr).1.2).file.cursor = lf.file.cursor ∧
    ((lf.read_at pos n tr).1.2).file.contents = lf.file.contents ∧
    ((lf.write_at pos buf tr).1.2).file.cursor = lf.file.cursor := by
  simp [LockedFile.read_at, LockedFile.write_at, LockedFile.lock,
    File.read_at, File.write_at]

/-- Claim C6: `metadata` forwards directly to the underlying file and is
never lock-guarded: the trace is untouched (the lock helper is not even
invoked, so no `DISK_LOCK` acquisition is attempted regardless of the
`no_lock` flag), and the result is the underlying metadata. -/
theorem metadata_forwards_without_lock (lf : LockedFile) (tr : Trace) :
    (lf.metadata tr).2 = tr ∧
    (lf.metadata tr).1.1 = (lf.file.metadata).1 ∧
    (lf.metadata tr).1.2 = lf := by
  simp [LockedFile.metadata, File.metadata]

/-- Claim C7: a successful `set_len size` followed by `metadata` reports
length exactly `size`; and extending the file to `L` bytes with
`set_len` and truncating back to the original length restores the
original contents (in particular the original leading bytes). -/
theorem set_len_metadata_and_restore (lf : LockedFile) (size L : Nat)
    (tr1 tr2 : Trace) (h : lf.file.contents.length ≤ L) :
    ((((lf.set_len size tr1).1.2).metadata tr2).1.1).len = size ∧
    ((((lf.set_len L tr1).1.2).set_len lf.file.contents.length tr2).1.2).file.contents
      = lf.file.contents := by
  constructor
  · simp [LockedFile.set_len, File.set_len, LockedFile.metadata, File.metadata,
      LockedFile.lock]
    omega
  · simp only [LockedFile.set_len, File.set_len, LockedFile.lock]
    exact set_len_restore lf.file.contents L h

/-- Claim C7, witness on a concrete three-byte file, extended to five
bytes and truncated back. -/
theorem set_len_metadata_and_restore_witness :
    ((⟨⟨[1, 2, 3], 0⟩, false⟩ : LockedFile).file.contents.length ≤ 5) ∧
    (((((⟨⟨[1, 2, 3], 0⟩, false⟩ : LockedFile).set_len 7 ⟨0, 0⟩).1.2).metadata
        ⟨1, 0⟩).1.1).len = 7 ∧
    (((((⟨⟨[1, 2, 3], 0⟩, false⟩ : LockedFile).set_len 5 ⟨0, 0⟩).1.2).set_len
        (⟨⟨[1, 2, 3], 0⟩, false⟩ : LockedFile).file.contents.length
        ⟨1, 0⟩).1.2).file.contents = [1, 2, 3] :=
  ⟨by decide,
    set_len_metadata_and_restore ⟨⟨[1, 2, 3], 0⟩, false⟩ 7 5 ⟨0, 0⟩ ⟨1, 0⟩
      (by decide)⟩

/-- Claim C8: `sync_all` and `sync_data` report success and leave the
whole handle — contents, length and stream cursor, hence everything
observable through `read`, `read_at` and `metadata` — unchanged. -/
theorem sync_ops_preserve_file_state (lf : LockedFile) (tr : Trace) :
    (lf.sync_all tr).1.1 = .ok () ∧ (lf.sync_all tr).1.2 = lf ∧
    (lf.sync_data tr).1.1 = .ok () ∧ (lf.sync_data tr).1.2 = lf := by
  simp [LockedFile.sync_all, LockedFile.sync_data, File.sync_all,
    File.sync_data, LockedFile.lock]

/-- Claim C9: every wrapper operation leaves the wrapper fields intact:
the `no_lock` flag after any operation equals the flag fixed at
construction, and the result is the same wrapper with only its `file`
component evolved. -/
theorem ops_preserve_wrapper_fields (lf : LockedFile) (tr : Trace) :
    (∀ n, ((lf.read n tr).1.2).no_lock = lf.no_lock) ∧
    (∀ sizes, ((lf.read_vectored sizes tr).1.2).no_lock = lf.no_lock) ∧
    (∀ buf, ((lf.write buf tr).1.2).no_lock = lf.no_lock) ∧
    (∀ bufs, ((lf.write_vectored bufs tr).1.2).no_lock = lf.no_lock) ∧
    (((lf.flush tr).1.2).no_lock = lf.no_lock) ∧
    (∀ pos, ((lf.seek pos tr).1.2).no_lock = lf.no_lock) ∧
    (∀ pos n, ((lf.read_at pos n tr).1.2).no_lock = lf.no_lock) ∧
    (∀ pos buf, ((lf.write_at pos buf tr).1.2).no_lock = lf.no_lock) ∧
    (((lf.metadata tr).1.2).no_lock = lf.no_lock) ∧
    (((lf.sync_all tr).1.2).no_lock = lf.no_lock) ∧
    (((lf.sync_data tr).1.2).no_lock = lf.no_lock) ∧
    (∀ size, ((lf.set_len size tr).1.2).no_lock = lf.no_lock) := by
  refine ⟨?_, ?_, ?_, ?_, ?_, ?_, ?_, ?_, ?_, ?_, ?_, ?_⟩ <;>
    simp [LockedFile.lock, LockedFile.read, LockedFile.read_vectored,
      LockedFile.write, LockedFile.write_vectored, LockedFile.flush,
      LockedFile.seek, LockedFile.read_at, LockedFile.write_at,
      LockedFile.metadata, LockedFile.sync_all, LockedFile.sync_data,
      LockedFile.set_len]

/-- Claim C10: the default constructor `new` is exactly `new_lock` with
the flag false, so locking is enabled by default. -/
theorem new_defaults_to_locking (f : File) :
    LockedFile.new f = LockedFile.new_lock f false ∧
    (LockedFile.new f).no_lock = false :=
  ⟨rfl, rfl⟩

end DiskLock
